import Mathlib

/-!
Shallow embedding of `src/app/db.py`, the storage layer of a retail
point-of-sale application.  The sqlite database is modelled as a `Store`
holding one list of typed rows per table; `REAL` columns become rationals,
`TEXT` columns strings, and `AUTOINCREMENT` ids explicit counters.  The
SHA-256 password hash (external library code) is passed in as an abstract
`hash : String → String` parameter.  Server timestamps (`datetime.now()`)
are passed in as a `now : String` parameter.  Fallible operations return
an `Except DBError` result paired with the post-state; an error result is
always paired with the unchanged pre-state, mirroring the rollback
performed by the sqlite connection context manager.
-/

/-- Row of the `products` table (`id, barcode UNIQUE, name, price, stock`). -/
structure Product where
  id : Nat
  barcode : String
  name : String
  price : ℚ
  stock : ℚ
deriving DecidableEq, Repr

/-- Row of the `sales` table. -/
structure SaleRow where
  id : Nat
  created_at : String
  subtotal : ℚ
  discount : ℚ
  tax_rate : ℚ
  tax_amount : ℚ
  total : ℚ
deriving DecidableEq, Repr

/-- Row of the `sale_items` table (the autoincrement row id is omitted;
it is never read back by the code). -/
structure SaleItemRow where
  sale_id : Nat
  product_id : Nat
  quantity : ℚ
  price : ℚ
  line_total : ℚ
deriving DecidableEq, Repr

/-- Row of the `users` table.  `is_active` is an INTEGER column; the code
compares it against `1` literally. -/
structure UserRow where
  id : Nat
  username : String
  password_hash : String
  display_name : String
  role : String
  is_active : Int
deriving DecidableEq, Repr

/-- Row of the `customers` and `suppliers` tables (identical shapes). -/
structure ContactRow where
  id : Nat
  name : String
  phone : String
  email : String
  address : String
deriving DecidableEq, Repr

/-- Row of the `expenses` table. -/
structure ExpenseRow where
  id : Nat
  created_at : String
  concept : String
  amount : ℚ
deriving DecidableEq, Repr

/-- Row of the `purchases` table; `supplier_id` is nullable. -/
structure PurchaseRow where
  id : Nat
  created_at : String
  supplier_id : Option Nat
  total : ℚ
deriving DecidableEq, Repr

/-- Row of the `purchase_items` table (row id omitted, as for sale items). -/
structure PurchaseItemRow where
  purchase_id : Nat
  product_id : Nat
  quantity : ℚ
  cost : ℚ
  line_total : ℚ
deriving DecidableEq, Repr

/-- Row of the `settings` table (`key` is the primary key). -/
structure SettingRow where
  key : String
  value : String
deriving DecidableEq, Repr

/-- Row of the `categories` table. -/
structure CategoryRow where
  id : Nat
  name : String
deriving DecidableEq, Repr

/-- Row of the `branches` table. -/
structure BranchRow where
  id : Nat
  name : String
  address : String
deriving DecidableEq, Repr

/-- The whole persisted database: one list per table plus the
autoincrement counters that sqlite keeps for the id columns the code
reads back (`lastrowid` of sales and purchases, product ids). -/
structure Store where
  products : List Product
  sales : List SaleRow
  sale_items : List SaleItemRow
  users : List UserRow
  customers : List ContactRow
  suppliers : List ContactRow
  expenses : List ExpenseRow
  purchases : List PurchaseRow
  purchase_items : List PurchaseItemRow
  settings : List SettingRow
  categories : List CategoryRow
  branches : List BranchRow
  nextProductId : Nat
  nextSaleId : Nat
  nextPurchaseId : Nat
deriving DecidableEq, Repr

/-- One cart line passed to `record_sale`
(`{product_id, quantity, price, line_total}`). -/
structure SaleItemInput where
  product_id : Nat
  quantity : ℚ
  price : ℚ
  line_total : ℚ
deriving DecidableEq, Repr

/-- One cart line passed to `record_purchase`
(`{product_id, quantity, cost, line_total}`). -/
structure PurchaseItemInput where
  product_id : Nat
  quantity : ℚ
  cost : ℚ
  line_total : ℚ
deriving DecidableEq, Repr

/-- Errors surfaced by the storage layer: `ValueError` raised by the code
itself, and sqlite `IntegrityError` raised by the engine's constraints. -/
inductive DBError where
  | valueError (msg : String)
  | integrityError
deriving DecidableEq, Repr

/-- `_hash_password` applied by `verify_user`, `add_user`, `update_user`:
SHA-256 is external library code, so the hash function is a parameter of
every operation that uses it. -/
def applyHash (hash : String → String) (password : String) : String :=
  hash password

/-- `verify_user(username, password)`: look up the row by username; fail
when absent or `is_active != 1`; otherwise compare the stored hash with
the hash of the supplied password. -/
def verify_user (hash : String → String) (username password : String)
    (st : Store) : Bool :=
  match st.users.find? (fun u => decide (u.username = username)) with
  | none => false
  | some u =>
    if u.is_active ≠ 1 then false
    else decide (u.password_hash = applyHash hash password)

/-- `add_product(barcode, name, price, stock)`: INSERT; a UNIQUE-barcode
violation raises `IntegrityError`, caught and converted to `false`. -/
def add_product (barcode name : String) (price stock : ℚ) (st : Store) :
    Bool × Store :=
  if st.products.any (fun p => decide (p.barcode = barcode)) then
    (false, st)
  else
    (true,
      { st with
        products := st.products ++ [⟨st.nextProductId, barcode, name, price, stock⟩],
        nextProductId := st.nextProductId + 1 })

/-- `update_product(product_id, barcode, name, price, stock)`:
UPDATE ... WHERE id = ?.  When no row matches, nothing happens and the
call succeeds.  When a row matches, a UNIQUE violation (another row
already holding the new barcode) yields `false` and no change. -/
def update_product (product_id : Nat) (barcode name : String)
    (price stock : ℚ) (st : Store) : Bool × Store :=
  if st.products.any (fun p => decide (p.id = product_id)) then
    if st.products.any (fun p => decide (p.id ≠ product_id ∧ p.barcode = barcode)) then
      (false, st)
    else
      (true,
        { st with
          products := st.products.map (fun p =>
            if p.id = product_id then ⟨product_id, barcode, name, price, stock⟩ else p) })
  else (true, st)

/-- `delete_product(product_id)`: DELETE ... WHERE id = ?.  The
`ON DELETE RESTRICT` foreign keys of `sale_items.product_id` and
`purchase_items.product_id` make sqlite raise `IntegrityError` when a row
being deleted is still referenced; `delete_product` does not catch it. -/
def delete_product (product_id : Nat) (st : Store) :
    Except DBError Unit × Store :=
  if st.products.any (fun p => decide (p.id = product_id)) &&
      (st.sale_items.any (fun i => decide (i.product_id = product_id)) ||
       st.purchase_items.any (fun i => decide (i.product_id = product_id))) then
    (Except.error DBError.integrityError, st)
  else
    (Except.ok (), { st with products := st.products.filter (fun p => decide (p.id ≠ product_id)) })

/-- Sum of the quantities a sale cart transacts for one product id. -/
def saleQty (pid : Nat) (items : List SaleItemInput) : ℚ :=
  (items.map (fun it => if it.product_id = pid then it.quantity else 0)).sum

/-- One iteration of the stock loop of `record_sale`:
`UPDATE products SET stock = stock - ? WHERE id = ?`. -/
def saleStockStep (ps : List Product) (it : SaleItemInput) : List Product :=
  ps.map (fun p =>
    if p.id = it.product_id then { p with stock := p.stock - it.quantity } else p)

/-- The stock loop of `record_sale`: one UPDATE per cart line, in order. -/
def applySaleStock (ps : List Product) (items : List SaleItemInput) :
    List Product :=
  items.foldl saleStockStep ps

/-- The `sale_items` rows inserted by `record_sale` for one sale id. -/
def saleItemRows (sid : Nat) (items : List SaleItemInput) : List SaleItemRow :=
  items.map (fun it => ⟨sid, it.product_id, it.quantity, it.price, it.line_total⟩)

/-- `record_sale(items, discount, tax_rate)`: reject an empty cart with
`ValueError`; otherwise compute subtotal, clamped discount, taxable,
tax amount and total, insert the header, the item rows and the stock
updates, and return `(sale_id, total)`.  `PRAGMA foreign_keys = ON`
makes the `sale_items` insert raise `IntegrityError` when a cart line's
`product_id` matches no product row; the transaction then rolls back,
so the call yields the error with the store unchanged. -/
def record_sale (now : String) (items : List SaleItemInput)
    (discount tax_rate : ℚ) (st : Store) :
    Except DBError (Nat × ℚ) × Store :=
  if items.isEmpty then
    (Except.error (DBError.valueError "No hay artículos en la venta"), st)
  else if items.all (fun it => st.products.any (fun p => decide (p.id = it.product_id))) then
    let subtotal := (items.map (fun it => it.line_total)).sum
    let discount := max 0 discount
    let taxable := max 0 (subtotal - discount)
    let tax_amount := taxable * tax_rate
    let total := taxable + tax_amount
    let sale_id := st.nextSaleId
    (Except.ok (sale_id, total),
      { st with
        sales := st.sales ++ [⟨sale_id, now, subtotal, discount, tax_rate, tax_amount, total⟩],
        sale_items := st.sale_items ++ saleItemRows sale_id items,
        products := applySaleStock st.products items,
        nextSaleId := st.nextSaleId + 1 })
  else
    (Except.error DBError.integrityError, st)

/-- Sum of the quantities a purchase cart transacts for one product id. -/
def purchaseQty (pid : Nat) (items : List PurchaseItemInput) : ℚ :=
  (items.map (fun it => if it.product_id = pid then it.quantity else 0)).sum

/-- One iteration of the stock loop of `record_purchase`:
`UPDATE products SET stock = stock + ? WHERE id = ?`. -/
def purchaseStockStep (ps : List Product) (it : PurchaseItemInput) :
    List Product :=
  ps.map (fun p =>
    if p.id = it.product_id then { p with stock := p.stock + it.quantity } else p)

/-- The stock loop of `record_purchase`: one UPDATE per cart line. -/
def applyPurchaseStock (ps : List Product) (items : List PurchaseItemInput) :
    List Product :=
  items.foldl purchaseStockStep ps

/-- The `purchase_items` rows inserted by `record_purchase`. -/
def purchaseItemRows (pid : Nat) (items : List PurchaseItemInput) :
    List PurchaseItemRow :=
  items.map (fun it => ⟨pid, it.product_id, it.quantity, it.cost, it.line_total⟩)

/-- The foreign key of `purchases.supplier_id`: a NULL supplier is
always accepted; a non-null one must name an existing supplier row, or
the header insert raises `IntegrityError`. -/
def supplierOk (supplier_id : Option Nat) (st : Store) : Bool :=
  match supplier_id with
  | none => true
  | some sid => st.suppliers.any (fun s => decide (s.id = sid))

/-- `record_purchase(items, supplier_id)`: reject an empty cart with
`ValueError`; otherwise total the line totals, insert the header, the
item rows and the stock updates, and return `(purchase_id, total)`.
`PRAGMA foreign_keys = ON` makes the inserts raise `IntegrityError`
when the non-null `supplier_id` matches no supplier row or a cart
line's `product_id` matches no product row; the transaction then rolls
back, so the call yields the error with the store unchanged. -/
def record_purchase (now : String) (items : List PurchaseItemInput)
    (supplier_id : Option Nat) (st : Store) :
    Except DBError (Nat × ℚ) × Store :=
  if items.isEmpty then
    (Except.error (DBError.valueError "No hay artículos en la compra"), st)
  else if supplierOk supplier_id st &&
      items.all (fun it => st.products.any (fun p => decide (p.id = it.product_id))) then
    let total := (items.map (fun it => it.line_total)).sum
    let purchase_id := st.nextPurchaseId
    (Except.ok (purchase_id, total),
      { st with
        purchases := st.purchases ++ [⟨purchase_id, now, supplier_id, total⟩],
        purchase_items := st.purchase_items ++ purchaseItemRows purchase_id items,
        products := applyPurchaseStock st.products items,
        nextPurchaseId := st.nextPurchaseId + 1 })
  else
    (Except.error DBError.integrityError, st)

/-- The write phase of `record_sale` runs inside a single sqlite
transaction (`with _connect() as conn`), which commits on success and
rolls back on any exception.  The storage engine's commit is external
code, so a possible mid-commit failure is modelled by a `fault` oracle:
a faulted commit restores the pre-call store. -/
def record_sale_txn (fault : Bool) (now : String) (items : List SaleItemInput)
    (discount tax_rate : ℚ) (st : Store) :
    Except DBError (Nat × ℚ) × Store :=
  match record_sale now items discount tax_rate st with
  | (Except.error e, s) => (Except.error e, s)
  | (Except.ok r, s) =>
    if fault then (Except.error DBError.integrityError, st) else (Except.ok r, s)

/-- Fault-oracle wrapper for `record_purchase`, as for `record_sale_txn`. -/
def record_purchase_txn (fault : Bool) (now : String)
    (items : List PurchaseItemInput) (supplier_id : Option Nat) (st : Store) :
    Except DBError (Nat × ℚ) × Store :=
  match record_purchase now items supplier_id st with
  | (Except.error e, s) => (Except.error e, s)
  | (Except.ok r, s) =>
    if fault then (Except.error DBError.integrityError, st) else (Except.ok r, s)

/-- `get_setting(key, default)`: SELECT value WHERE key = ?; absent keys
yield the default. -/
def get_setting (key default : String) (st : Store) : String :=
  match st.settings.find? (fun r => decide (r.key = key)) with
  | none => default
  | some r => r.value

/-- `set_setting(key, value)`: INSERT ... ON CONFLICT(key) DO UPDATE —
replace the value of every row holding the key when one exists,
otherwise append a fresh row. -/
def set_setting (key value : String) (st : Store) : Store :=
  if st.settings.any (fun r => decide (r.key = key)) then
    { st with settings := st.settings.map (fun r =>
        if r.key = key then ⟨r.key, value⟩ else r) }
  else
    { st with settings := st.settings ++ [⟨key, value⟩] }

/-- Number of `settings` rows holding a given key. -/
def settingCount (key : String) (st : Store) : Nat :=
  st.settings.countP (fun r => decide (r.key = key))

/-- `update_user(user_id, username, password, display_name, role,
is_active)`: UPDATE ... WHERE id = ?.  A falsy password (`None` or `""`)
leaves the stored hash untouched; a UNIQUE-username violation yields
`false`; a nonexistent id updates nothing and succeeds. -/
def update_user (hash : String → String) (user_id : Nat) (username : String)
    (password : Option String) (display_name role : String)
    (is_active : Bool) (st : Store) : Bool × Store :=
  if st.users.any (fun u => decide (u.id = user_id)) then
    if st.users.any (fun u => decide (u.id ≠ user_id ∧ u.username = username)) then
      (false, st)
    else
      (true,
        { st with users := st.users.map (fun u =>
            if u.id = user_id then
              { u with
                username := username,
                password_hash :=
                  match password with
                  | some p => if p = "" then u.password_hash else applyHash hash p
                  | none => u.password_hash,
                display_name := display_name,
                role := role,
                is_active := if is_active then 1 else 0 }
            else u) })
  else (true, st)

/-- `clear_transactions()`: DELETE every row of `sale_items`, `sales`,
`purchase_items`, `purchases` and `expenses`; no other table is touched. -/
def clear_transactions (st : Store) : Store :=
  { st with
    sale_items := [],
    sales := [],
    purchase_items := [],
    purchases := [],
    expenses := [] }

/-- An empty database, used to build concrete witness states. -/
def emptyStore : Store :=
  { products := [], sales := [], sale_items := [], users := [],
    customers := [], suppliers := [], expenses := [], purchases := [],
    purchase_items := [], settings := [], categories := [], branches := [],
    nextProductId := 1, nextSaleId := 1, nextPurchaseId := 1 }

/-- C4: an empty cart makes `record_sale` and `record_purchase` raise the
empty-cart `ValueError` and leaves the store untouched. -/
theorem c4_empty_cart (now : String) (discount tax_rate : ℚ)
    (supplier_id : Option Nat) (st : Store) :
    record_sale now [] discount tax_rate st =
      (Except.error (DBError.valueError "No hay artículos en la venta"), st) ∧
    record_purchase now [] supplier_id st =
      (Except.error (DBError.valueError "No hay artículos en la compra"), st) := by
  exact ⟨rfl, rfl⟩

/-- C9: `clear_transactions` empties the sales, sale_items, purchases,
purchase_items and expenses tables and leaves products (hence every
stock), customers, suppliers, users and settings unchanged. -/
theorem c9_clear_transactions (st : Store) :
    (clear_transactions st).sales = [] ∧
    (clear_transactions st).sale_items = [] ∧
    (clear_transactions st).purchases = [] ∧
    (clear_transactions st).purchase_items = [] ∧
    (clear_transactions st).expenses = [] ∧
    (clear_transactions st).products = st.products ∧
    (clear_transactions st).customers = st.customers ∧
    (clear_transactions st).suppliers = st.suppliers ∧
    (clear_transactions st).users = st.users ∧
    (clear_transactions st).settings = st.settings := by
  refine ⟨rfl, rfl, rfl, rfl, rfl, rfl, rfl, rfl, rfl, rfl⟩

/-- C1 (amended): on a non-empty cart every line of which references an
existing product row, `record_sale` computes `subtotal = Σ line_total`,
clamps the discount at zero, sets `taxable = max 0 (subtotal - discount)`,
`tax_amount = taxable * tax_rate` and `total = taxable + tax_amount`,
stores those amounts in the new sale header and returns
`(sale_id, total)`.  The existing-product hypothesis is forced by the
foreign key on `sale_items.product_id`: a cart line whose id matches no
product row makes the call raise `IntegrityError` instead of returning
(see the counterexample below). -/
theorem c1_record_sale_totals (now : String) (items : List SaleItemInput)
    (discount tax_rate : ℚ) (st : Store) (h : items ≠ [])
    (hfk : ∀ it ∈ items, ∃ p ∈ st.products, p.id = it.product_id) :
    record_sale now items discount tax_rate st =
      (Except.ok (st.nextSaleId,
          max 0 ((items.map (fun it => it.line_total)).sum - max 0 discount) +
            max 0 ((items.map (fun it => it.line_total)).sum - max 0 discount) * tax_rate),
        { st with
          sales := st.sales ++
            [⟨st.nextSaleId, now,
              (items.map (fun it => it.line_total)).sum,
              max 0 discount,
              tax_rate,
              max 0 ((items.map (fun it => it.line_total)).sum - max 0 discount) * tax_rate,
              max 0 ((items.map (fun it => it.line_total)).sum - max 0 discount) +
                max 0 ((items.map (fun it => it.line_total)).sum - max 0 discount) * tax_rate⟩],
          sale_items := st.sale_items ++ saleItemRows st.nextSaleId items,
          products := applySaleStock st.products items,
          nextSaleId := st.nextSaleId + 1 }) := by
  have hb : (items.all fun it => st.products.any fun p => decide (p.id = it.product_id)) =
      true := by
    rw [List.all_eq_true]
    intro it hit
    rw [List.any_eq_true]
    obtain ⟨p, hp, hpe⟩ := hfk it hit
    exact ⟨p, hp, decide_eq_true hpe⟩
  obtain ⟨it0, its, rfl⟩ := List.exists_cons_of_ne_nil h
  unfold record_sale
  rw [if_pos hb]
  rfl

/-- A one-product catalog (barcode `"123"`, price 10, stock 5), matching
the scenario of the spec. -/
def stProd : Store :=
  { emptyStore with products := [⟨1, "123", "Producto", 10, 5⟩], nextProductId := 2 }

theorem c1_record_sale_totals_witness :
    ([(⟨1, 2, 10, 20⟩ : SaleItemInput)] ≠ []) ∧
    (∀ it ∈ [(⟨1, 2, 10, 20⟩ : SaleItemInput)],
      ∃ p ∈ stProd.products, p.id = it.product_id) ∧
    (record_sale "2025-01-01 12:00:00" [⟨1, 2, 10, 20⟩] 5 (1/10) stProd).1 =
      Except.ok (1, 33/2) := by
  refine ⟨by decide, by decide, ?_⟩
  rw [c1_record_sale_totals "2025-01-01 12:00:00" [⟨1, 2, 10, 20⟩] 5 (1/10) stProd
    (by decide) (by decide)]
  norm_num [stProd, emptyStore]

/-- C1 counterexample: the claim quantifies over every non-empty cart,
but a cart line whose `product_id` (here 99) matches no product row
violates the `sale_items.product_id` foreign key: `record_sale` yields
`IntegrityError` with the store unchanged instead of returning a total. -/
theorem c1_record_sale_totals_cex :
    record_sale "2025-01-01 12:00:00" [⟨99, 2, 10, 20⟩] 5 (1/10) stProd =
      (Except.error DBError.integrityError, stProd) := by
  rfl

/-- The net effect of the per-item stock loop of `record_sale`: every
product's stock drops by the summed quantity the cart transacts for its
id, and nothing else about the row changes. -/
theorem applySaleStock_eq_map (items : List SaleItemInput) :
    ∀ ps : List Product,
      applySaleStock ps items =
        ps.map (fun p => { p with stock := p.stock - saleQty p.id items }) := by
  induction items with
  | nil =>
    intro ps
    calc applySaleStock ps [] = ps.map (fun p => p) := by simp [applySaleStock]
    _ = ps.map (fun p => { p with stock := p.stock - saleQty p.id [] }) := by
        refine List.map_congr_left ?_
        intro p _
        cases p
        simp [saleQty]
  | cons it its ih =>
    intro ps
    have h1 : applySaleStock ps (it :: its) = applySaleStock (saleStockStep ps it) its := rfl
    rw [h1, ih, saleStockStep, List.map_map]
    refine List.map_congr_left ?_
    intro p _
    obtain ⟨pid, bc, nm, pr, stv⟩ := p
    by_cases h : pid = it.product_id
    · simp [Function.comp, h, saleQty, sub_sub]
    · have h2 : ¬(it.product_id = pid) := fun hh => h hh.symm
      simp [Function.comp, h, h2, saleQty]

/-- The net effect of the per-item stock loop of `record_purchase`:
every product's stock grows by its summed transacted quantity. -/
theorem applyPurchaseStock_eq_map (items : List PurchaseItemInput) :
    ∀ ps : List Product,
      applyPurchaseStock ps items =
        ps.map (fun p => { p with stock := p.stock + purchaseQty p.id items }) := by
  induction items with
  | nil =>
    intro ps
    calc applyPurchaseStock ps [] = ps.map (fun p => p) := by simp [applyPurchaseStock]
    _ = ps.map (fun p => { p with stock := p.stock + purchaseQty p.id [] }) := by
        refine List.map_congr_left ?_
        intro p _
        cases p
        simp [purchaseQty]
  | cons it its ih =>
    intro ps
    have h1 : applyPurchaseStock ps (it :: its) =
        applyPurchaseStock (purchaseStockStep ps it) its := rfl
    rw [h1, ih, purchaseStockStep, List.map_map]
    refine List.map_congr_left ?_
    intro p _
    obtain ⟨pid, bc, nm, pr, stv⟩ := p
    by_cases h : pid = it.product_id
    · simp [Function.comp, h, purchaseQty, add_assoc]
    · have h2 : ¬(it.product_id = pid) := fun hh => h hh.symm
      simp [Function.comp, h, h2, purchaseQty]

/-- C3: a successful `record_sale` decreases each product's stock by
exactly the summed quantity the cart transacts for that product, and a
successful `record_purchase` increases it symmetrically; the new stock is
the plain difference/sum, with no floor, so it may be negative. -/
theorem c3_stock_deltas (now : String) (sitems : List SaleItemInput)
    (pitems : List PurchaseItemInput) (discount tax_rate : ℚ)
    (supplier_id : Option Nat) (st st2 : Store)
    (hs : ∃ r, (record_sale now sitems discount tax_rate st).1 = Except.ok r)
    (hp : ∃ r, (record_purchase now pitems supplier_id st2).1 = Except.ok r) :
    (record_sale now sitems discount tax_rate st).2.products =
      st.products.map (fun p => { p with stock := p.stock - saleQty p.id sitems }) ∧
    (record_purchase now pitems supplier_id st2).2.products =
      st2.products.map (fun p => { p with stock := p.stock + purchaseQty p.id pitems }) := by
  constructor
  · obtain ⟨r, hr⟩ := hs
    by_cases hemp : sitems.isEmpty = true
    · simp [record_sale, hemp] at hr
    · by_cases hb : (sitems.all fun it =>
          st.products.any fun p => decide (p.id = it.product_id)) = true
      · have h2 : (record_sale now sitems discount tax_rate st).2.products =
            applySaleStock st.products sitems := by
          simp [record_sale, hemp, hb]
        rw [h2, applySaleStock_eq_map]
      · simp [record_sale, hemp, hb] at hr
  · obtain ⟨r, hr⟩ := hp
    by_cases hemp : pitems.isEmpty = true
    · simp [record_purchase, hemp] at hr
    · by_cases hb : (supplierOk supplier_id st2 && pitems.all fun it =>
          st2.products.any fun p => decide (p.id = it.product_id)) = true
      · have h2 : (record_purchase now pitems supplier_id st2).2.products =
            applyPurchaseStock st2.products pitems := by
          simp [record_purchase, hemp, hb]
        rw [h2, applyPurchaseStock_eq_map]
      · simp [record_purchase, hemp, hb] at hr

/-- A catalog whose single product has stock 1, so that selling 2 drives
the stock negative. -/
def stLow : Store :=
  { emptyStore with products := [⟨1, "123", "Producto", 10, 1⟩], nextProductId := 2 }

theorem c3_stock_deltas_witness :
    (∃ r, (record_sale "d" [⟨1, 2, 10, 20⟩] 0 0 stLow).1 = Except.ok r) ∧
    (∃ r, (record_purchase "d" [⟨1, 10, 8, 80⟩] none stProd).1 = Except.ok r) ∧
    (record_sale "d" [⟨1, 2, 10, 20⟩] 0 0 stLow).2.products =
      [⟨1, "123", "Producto", 10, -1⟩] ∧
    (record_purchase "d" [⟨1, 10, 8, 80⟩] none stProd).2.products =
      [⟨1, "123", "Producto", 10, 15⟩] := by
  refine ⟨⟨_, rfl⟩, ⟨_, rfl⟩, ?_, ?_⟩
  · exact ((c3_stock_deltas "d" [⟨1, 2, 10, 20⟩] [⟨1, 10, 8, 80⟩] 0 0 none stLow stProd
      ⟨_, rfl⟩ ⟨_, rfl⟩).1).trans (by norm_num [stLow, emptyStore, saleQty])
  · exact ((c3_stock_deltas "d" [⟨1, 2, 10, 20⟩] [⟨1, 10, 8, 80⟩] 0 0 none stLow stProd
      ⟨_, rfl⟩ ⟨_, rfl⟩).2).trans (by norm_num [stProd, emptyStore, purchaseQty])

/-- C2: each call to the transactional wrappers is all-or-nothing.  Any
error result (empty cart, or a fault during commit) leaves the store
exactly as it was; a successful result applies every write of the call:
one header row, one item row per cart line, and every stock delta. -/
theorem c2_atomicity (fault : Bool) (now : String) (sitems : List SaleItemInput)
    (pitems : List PurchaseItemInput) (discount tax_rate : ℚ)
    (supplier_id : Option Nat) (st st2 : Store) :
    ((∀ e, (record_sale_txn fault now sitems discount tax_rate st).1 = Except.error e →
        (record_sale_txn fault now sitems discount tax_rate st).2 = st) ∧
     (∀ r, (record_sale_txn fault now sitems discount tax_rate st).1 = Except.ok r →
        ∃ hdr : SaleRow,
          (record_sale_txn fault now sitems discount tax_rate st).2 =
            { st with
              sales := st.sales ++ [hdr],
              sale_items := st.sale_items ++ saleItemRows st.nextSaleId sitems,
              products := applySaleStock st.products sitems,
              nextSaleId := st.nextSaleId + 1 })) ∧
    ((∀ e, (record_purchase_txn fault now pitems supplier_id st2).1 = Except.error e →
        (record_purchase_txn fault now pitems supplier_id st2).2 = st2) ∧
     (∀ r, (record_purchase_txn fault now pitems supplier_id st2).1 = Except.ok r →
        ∃ hdr : PurchaseRow,
          (record_purchase_txn fault now pitems supplier_id st2).2 =
            { st2 with
              purchases := st2.purchases ++ [hdr],
              purchase_items := st2.purchase_items ++ purchaseItemRows st2.nextPurchaseId pitems,
              products := applyPurchaseStock st2.products pitems,
              nextPurchaseId := st2.nextPurchaseId + 1 })) := by
  constructor
  · constructor
    · intro e he
      by_cases hemp : sitems.isEmpty = true
      · simp [record_sale_txn, record_sale, hemp]
      · by_cases hb : (sitems.all fun it =>
            st.products.any fun p => decide (p.id = it.product_id)) = true
        · cases fault with
          | false => simp [record_sale_txn, record_sale, hemp, hb] at he
          | true => simp [record_sale_txn, record_sale, hemp, hb]
        · simp [record_sale_txn, record_sale, hemp, hb]
    · intro r hr
      by_cases hemp : sitems.isEmpty = true
      · simp [record_sale_txn, record_sale, hemp] at hr
      · by_cases hb : (sitems.all fun it =>
            st.products.any fun p => decide (p.id = it.product_id)) = true
        · cases fault with
          | false =>
            refine ⟨⟨st.nextSaleId, now,
              (sitems.map (fun it => it.line_total)).sum,
              max 0 discount, tax_rate,
              max 0 ((sitems.map (fun it => it.line_total)).sum - max 0 discount) * tax_rate,
              max 0 ((sitems.map (fun it => it.line_total)).sum - max 0 discount) +
                max 0 ((sitems.map (fun it => it.line_total)).sum - max 0 discount) *
                  tax_rate⟩, ?_⟩
            simp [record_sale_txn, record_sale, hemp, hb]
          | true => simp [record_sale_txn, record_sale, hemp, hb] at hr
        · simp [record_sale_txn, record_sale, hemp, hb] at hr
  · constructor
    · intro e he
      by_cases hemp : pitems.isEmpty = true
      · simp [record_purchase_txn, record_purchase, hemp]
      · by_cases hb : (supplierOk supplier_id st2 && pitems.all fun it =>
            st2.products.any fun p => decide (p.id = it.product_id)) = true
        · cases fault with
          | false => simp [record_purchase_txn, record_purchase, hemp, hb] at he
          | true => simp [record_purchase_txn, record_purchase, hemp, hb]
        · simp [record_purchase_txn, record_purchase, hemp, hb]
    · intro r hr
      by_cases hemp : pitems.isEmpty = true
      · simp [record_purchase_txn, record_purchase, hemp] at hr
      · by_cases hb : (supplierOk supplier_id st2 && pitems.all fun it =>
            st2.products.any fun p => decide (p.id = it.product_id)) = true
        · cases fault with
          | false =>
            refine ⟨⟨st2.nextPurchaseId, now, supplier_id,
              (pitems.map (fun it => it.line_total)).sum⟩, ?_⟩
            simp [record_purchase_txn, record_purchase, hemp, hb]
          | true => simp [record_purchase_txn, record_purchase, hemp, hb] at hr
        · simp [record_purchase_txn, record_purchase, hemp, hb] at hr

theorem c2_atomicity_witness :
    (record_sale_txn true "d" [⟨1, 2, 10, 20⟩] 0 0 stProd).1 =
      Except.error DBError.integrityError ∧
    (record_sale_txn true "d" [⟨1, 2, 10, 20⟩] 0 0 stProd).2 = stProd ∧
    (record_purchase_txn true "d" [⟨1, 10, 8, 80⟩] none stProd).2 = stProd := by
  refine ⟨rfl, ?_, ?_⟩
  · exact (c2_atomicity true "d" [⟨1, 2, 10, 20⟩] [⟨1, 10, 8, 80⟩] 0 0 none
      stProd stProd).1.1 DBError.integrityError rfl
  · exact (c2_atomicity true "d" [⟨1, 2, 10, 20⟩] [⟨1, 10, 8, 80⟩] 0 0 none
      stProd stProd).2.1 DBError.integrityError rfl

/-- C5: deleting a product that some sale item or purchase item still
references propagates the storage layer's `IntegrityError` uncaught, and
the product row is still present afterwards. -/
theorem c5_delete_product_blocked (product_id : Nat) (st : Store)
    (hex : ∃ p ∈ st.products, p.id = product_id)
    (href : (∃ i ∈ st.sale_items, i.product_id = product_id) ∨
            (∃ i ∈ st.purchase_items, i.product_id = product_id)) :
    delete_product product_id st = (Except.error DBError.integrityError, st) ∧
    ∃ p ∈ (delete_product product_id st).2.products, p.id = product_id := by
  have hcond : ((st.products.any fun p => decide (p.id = product_id)) &&
      ((st.sale_items.any fun i => decide (i.product_id = product_id)) ||
       (st.purchase_items.any fun i => decide (i.product_id = product_id)))) = true := by
    simp only [Bool.and_eq_true, Bool.or_eq_true, List.any_eq_true, decide_eq_true_eq]
    exact ⟨hex, href⟩
  have h1 : delete_product product_id st = (Except.error DBError.integrityError, st) := by
    simp [delete_product, hcond]
  refine ⟨h1, ?_⟩
  rw [h1]
  exact hex

/-- A store holding one product that a committed sale item references. -/
def stRef : Store :=
  { emptyStore with
    products := [⟨1, "123", "Producto", 10, 3⟩],
    sales := [⟨1, "d", 20, 0, 0, 0, 20⟩],
    sale_items := [⟨1, 1, 2, 10, 20⟩],
    nextProductId := 2, nextSaleId := 2 }

theorem c5_delete_product_blocked_witness :
    (∃ p ∈ stRef.products, p.id = 1) ∧
    ((∃ i ∈ stRef.sale_items, i.product_id = 1) ∨
     (∃ i ∈ stRef.purchase_items, i.product_id = 1)) ∧
    delete_product 1 stRef = (Except.error DBError.integrityError, stRef) := by
  refine ⟨by decide, by decide, ?_⟩
  exact (c5_delete_product_blocked 1 stRef (by decide) (by decide)).1

/-- C6: `add_product` returns the duplicate signal (`false`) exactly when
the barcode already exists; on `false` the store is unchanged, and on
`true` exactly the one new row is appended. -/
theorem c6_add_product (barcode name : String) (price stock : ℚ) (st : Store) :
    ((add_product barcode name price stock st).1 = false ↔
      ∃ p ∈ st.products, p.barcode = barcode) ∧
    ((add_product barcode name price stock st).1 = false →
      (add_product barcode name price stock st).2 = st) ∧
    ((add_product barcode name price stock st).1 = true →
      (add_product barcode name price stock st).2.products =
        st.products ++ [⟨st.nextProductId, barcode, name, price, stock⟩]) := by
  by_cases h : (st.products.any fun p => decide (p.barcode = barcode)) = true
  · have hdup : ∃ p ∈ st.products, p.barcode = barcode := by
      simpa only [List.any_eq_true, decide_eq_true_eq] using h
    refine ⟨?_, ?_, ?_⟩
    · simp [add_product, h, hdup]
    · intro _
      simp [add_product, h]
    · intro htrue
      simp [add_product, h] at htrue
  · have hdup : ¬∃ p ∈ st.products, p.barcode = barcode := by
      simpa only [List.any_eq_true, decide_eq_true_eq] using h
    refine ⟨?_, ?_, ?_⟩
    · simp [add_product, h, hdup]
    · intro hfalse
      simp [add_product, h] at hfalse
    · intro _
      simp [add_product, h]

theorem c6_add_product_witness :
    (add_product "123" "Otro" 5 1 stProd).1 = false ∧
    (add_product "123" "Otro" 5 1 stProd).2 = stProd ∧
    (add_product "456" "Nuevo" 5 1 stProd).1 = true ∧
    (add_product "456" "Nuevo" 5 1 stProd).2.products =
      stProd.products ++ [⟨2, "456", "Nuevo", 5, 1⟩] := by
  refine ⟨?_, ?_, ?_, ?_⟩
  · exact (c6_add_product "123" "Otro" 5 1 stProd).1.mpr (by decide)
  · exact (c6_add_product "123" "Otro" 5 1 stProd).2.1 (by decide)
  · decide
  · exact (c6_add_product "456" "Nuevo" 5 1 stProd).2.2 (by decide)

/-- C7: `verify_user` succeeds exactly for an existing, active user whose
stored hash equals the hash of the supplied password; an unknown username
or an inactive user always fails. -/
theorem c7_verify_user (hash : String → String) (username password : String)
    (st : Store) (hnd : (st.users.map (fun u => u.username)).Nodup) :
    verify_user hash username password st = true ↔
      ∃ u ∈ st.users, u.username = username ∧ u.is_active = 1 ∧
        u.password_hash = applyHash hash password := by
  unfold verify_user
  cases hfind : st.users.find? (fun u => decide (u.username = username)) with
  | none =>
    simp only [Bool.false_eq_true, false_iff]
    rintro ⟨u, hu, huser, -, -⟩
    have h2 := List.find?_eq_none.mp hfind u hu
    simp [huser] at h2
  | some u =>
    have humem : u ∈ st.users := List.mem_of_find?_eq_some hfind
    have huser : u.username = username := by
      have h3 := List.find?_some hfind
      simpa using h3
    show (if u.is_active ≠ 1 then false
        else decide (u.password_hash = applyHash hash password)) = true ↔ _
    by_cases hact : u.is_active = 1
    · rw [if_neg (by simp [hact])]
      constructor
      · intro h
        exact ⟨u, humem, huser, hact, of_decide_eq_true h⟩
      · rintro ⟨v, hv, hvuser, hvact, hvhash⟩
        have hvu : v = u :=
          List.inj_on_of_nodup_map hnd hv humem (by simp [hvuser, huser])
        subst hvu
        exact decide_eq_true hvhash
    · rw [if_pos hact]
      simp only [Bool.false_eq_true, false_iff]
      rintro ⟨v, hv, hvuser, hvact, hvhash⟩
      have hvu : v = u :=
        List.inj_on_of_nodup_map hnd hv humem (by simp [hvuser, huser])
      subst hvu
      exact hact hvact

/-- Two users: an active `admin` and an inactive `alice`, both with their
stored hash equal to the identity hash of their password. -/
def stUsers : Store :=
  { emptyStore with
    users := [⟨1, "admin", "1234", "Admin", "Administrador", 1⟩,
              ⟨2, "alice", "pw", "Alice", "Cajero", 0⟩] }

theorem c7_verify_user_witness :
    ((stUsers.users.map (fun u => u.username)).Nodup) ∧
    verify_user (fun s => s) "admin" "1234" stUsers = true ∧
    verify_user (fun s => s) "alice" "pw" stUsers = false := by
  refine ⟨by decide, ?_, by decide⟩
  exact (c7_verify_user (fun s => s) "admin" "1234" stUsers (by decide)).mpr
    ⟨⟨1, "admin", "1234", "Admin", "Administrador", 1⟩, by decide, rfl, rfl, rfl⟩

/-- After the upsert of `set_setting`, looking the key up finds the new
value: the conflicting row, when present, is the first row holding the
key, and its value has been replaced. -/
theorem find_upsert_value (key v : String) :
    ∀ l : List SettingRow,
      l.any (fun r => decide (r.key = key)) = true →
      (l.map (fun r => if r.key = key then (⟨r.key, v⟩ : SettingRow) else r)).find?
        (fun r => decide (r.key = key)) = some ⟨key, v⟩ := by
  intro l
  induction l with
  | nil => intro h; simp at h
  | cons r rs ih =>
    intro hany
    by_cases h : r.key = key
    · simp [List.find?, h]
    · have h2 : rs.any (fun r => decide (r.key = key)) = true := by
        simpa [h] using hany
      simp [List.find?, h, ih h2]

/-- The in-place update branch of `set_setting` does not change how many
rows hold any given key. -/
theorem settingCount_map (key v : String) (l : List SettingRow) :
    (l.map (fun r => if r.key = key then (⟨r.key, v⟩ : SettingRow) else r)).countP
      (fun r => decide (r.key = key)) = l.countP (fun r => decide (r.key = key)) := by
  rw [List.countP_map]
  refine List.countP_congr ?_
  intro r _
  by_cases h : r.key = key
  · simp [Function.comp, h]
  · simp [Function.comp, h]

/-- Reading a key back right after setting it returns the new value. -/
theorem get_set_same (key v d : String) (st : Store) :
    get_setting key d (set_setting key v st) = v := by
  by_cases h : (st.settings.any fun r => decide (r.key = key)) = true
  · simp [get_setting, set_setting, h, find_upsert_value key v st.settings h]
  · have hnone : st.settings.find? (fun r => decide (r.key = key)) = none := by
      rw [List.find?_eq_none]
      intro x hx
      intro hc
      exact h (List.any_eq_true.mpr ⟨x, hx, hc⟩)
    simp [get_setting, set_setting, h, List.find?_append, hnone]

/-- `set_setting` leaves exactly one row for the key whenever the key
held at most one row before (the primary-key invariant). -/
theorem settingCount_set (key v : String) (st : Store)
    (h : settingCount key st ≤ 1) :
    settingCount key (set_setting key v st) = 1 := by
  unfold settingCount at h ⊢
  cases hany : (st.settings.any fun r => decide (r.key = key)) with
  | true =>
    have hpos : 0 < st.settings.countP (fun r => decide (r.key = key)) :=
      List.countP_pos_iff.mpr (List.any_eq_true.mp hany)
    simp [set_setting, hany]
    have hco : List.countP ((fun r => decide (r.key = key)) ∘ fun r =>
        if r.key = key then (⟨r.key, v⟩ : SettingRow) else r) st.settings =
        List.countP (fun r => decide (r.key = key)) st.settings :=
      List.countP_congr (by
        intro r _
        by_cases hr : r.key = key
        · simp [Function.comp, hr]
        · simp [Function.comp, hr])
    rw [hco]
    omega
  | false =>
    have hzero : st.settings.countP (fun r => decide (r.key = key)) = 0 :=
      List.countP_eq_zero.mpr (List.any_eq_false.mp hany)
    simp [set_setting, hany, List.countP_append, hzero]

/-- C8: `get_setting` falls back to the default exactly when the key is
absent, and `set_setting` is an upsert: after setting `a` then `b`,
reading the key yields `b` and the table holds exactly one row for it. -/
theorem c8_settings (key default a b : String) (st : Store) :
    ((∀ r ∈ st.settings, r.key ≠ key) → get_setting key default st = default) ∧
    get_setting key "" (set_setting key b (set_setting key a st)) = b ∧
    (settingCount key st ≤ 1 →
      settingCount key (set_setting key b (set_setting key a st)) = 1) := by
  refine ⟨?_, ?_, ?_⟩
  · intro habs
    have hnone : st.settings.find? (fun r => decide (r.key = key)) = none := by
      rw [List.find?_eq_none]
      intro x hx
      simpa using habs x hx
    simp [get_setting, hnone]
  · exact get_set_same key b "" (set_setting key a st)
  · intro hle
    exact settingCount_set key b _ (le_of_eq (settingCount_set key a st hle))

theorem c8_settings_witness :
    (∀ r ∈ emptyStore.settings, r.key ≠ "k") ∧
    settingCount "k" emptyStore ≤ 1 ∧
    get_setting "k" "X" emptyStore = "X" ∧
    get_setting "k" "" (set_setting "k" "b" (set_setting "k" "a" emptyStore)) = "b" ∧
    settingCount "k" (set_setting "k" "b" (set_setting "k" "a" emptyStore)) = 1 := by
  refine ⟨by decide, by decide, ?_, ?_, ?_⟩
  · exact (c8_settings "k" "X" "a" "b" emptyStore).1 (by decide)
  · exact (c8_settings "k" "X" "a" "b" emptyStore).2.1
  · exact (c8_settings "k" "X" "a" "b" emptyStore).2.2 (by decide)

/-- C10: an `update_product` or `update_user` whose id matches no row
returns the success signal and changes nothing. -/
theorem c10_update_nonexistent (hash : String → String)
    (product_id user_id : Nat) (barcode name : String) (price stock : ℚ)
    (username : String) (password : Option String) (display_name role : String)
    (is_active : Bool) (st st2 : Store)
    (hp : ∀ p ∈ st.products, p.id ≠ product_id)
    (hu : ∀ u ∈ st2.users, u.id ≠ user_id) :
    update_product product_id barcode name price stock st = (true, st) ∧
    update_user hash user_id username password display_name role is_active st2 =
      (true, st2) := by
  constructor
  · have h : (st.products.any fun p => decide (p.id = product_id)) = false := by
      rw [List.any_eq_false]
      intro p hpmem
      simpa using hp p hpmem
    simp [update_product, h]
  · have h : (st2.users.any fun u => decide (u.id = user_id)) = false := by
      rw [List.any_eq_false]
      intro u humem
      simpa using hu u humem
    simp [update_user, h]

theorem c10_update_nonexistent_witness :
    (∀ p ∈ stProd.products, p.id ≠ 99) ∧
    (∀ u ∈ stProd.users, u.id ≠ 99) ∧
    update_product 99 "999" "Nada" 1 1 stProd = (true, stProd) ∧
    update_user (fun s => s) 99 "nadie" (some "x") "Nadie" "Cajero" true stProd =
      (true, stProd) := by
  refine ⟨by decide, by decide, ?_, ?_⟩
  · exact (c10_update_nonexistent (fun s => s) 99 99 "999" "Nada" 1 1 "nadie"
      (some "x") "Nadie" "Cajero" true stProd stProd (by decide) (by decide)).1
  · exact (c10_update_nonexistent (fun s => s) 99 99 "999" "Nada" 1 1 "nadie"
      (some "x") "Nadie" "Cajero" true stProd stProd (by decide) (by decide)).2
